import Mathlib

/-!
Verification of the `finsweet-phone-prefix` widget (a country phone-prefix
dropdown written in TypeScript) against its natural-language specification.

The TypeScript source is shallowly embedded: the `PhonePrefix` class instance
becomes an explicit state record (`PhonePrefixState`), its methods become
state-transforming functions, DOM elements are modelled by records of the
attributes the code reads and writes, and the two network fetches take their
response as an `Except` value (exception or settled payload).  JavaScript
strings are modelled by `String`, with the JS operations the code uses
(`slice(0,-1)`, `toLowerCase`, `startsWith`, `split`, regex tests) defined
over the character list `String.data` with JS semantics (ASCII case mapping;
the source only case-maps ASCII search keys and country fields).

Item identity: in TypeScript, items are compared by object reference
(`this.selectedItem === item`, `items.findIndex(item => item === this.focusedItem)`).
All `DropdownItem` objects live in the `items` array, so a reference is
faithfully modelled by the item's index in that array; `selectedItem` and
`focusedItem` are `Option Nat` indices.
-/

namespace FinsweetPhone

/-- A country record as consumed from the REST countries endpoint
(fields `name.common`, `flags.svg`, `idd.root`, `idd.suffixes`, `cca2`). -/
structure Country where
  nameCommon : String
  flagsSvg : String
  iddRoot : String
  iddSuffixes : List String
  cca2 : String
deriving Repr, DecidableEq

/-- The DOM state of one rendered list item: the attributes the widget reads
or writes on the item element and its flag/value children.  `itemMarked`
models the presence of the `data-phone-prefix-element="item"` attribute
(kept by `cloneNode`), which `querySelector` matches. -/
structure ItemElement where
  itemMarked : Bool
  flagSrc : String
  flagAlt : String
  valueText : String
  ariaLabel : Option String
  titleAttr : Option String
  selectedClass : Bool
  ariaSelected : Option String
deriving Repr, DecidableEq

/-- A rendered dropdown item: the list element paired with its country. -/
structure DropdownItem where
  element : ItemElement
  country : Country
deriving Repr, DecidableEq

/-- The DOM state of the dropdown toggle: the attributes the widget writes. -/
structure ToggleElement where
  ariaHaspopup : Option String
  ariaLabel : Option String
  flagSrc : String
  flagAlt : String
  valueText : String
deriving Repr, DecidableEq

/-- The mutable state of a `PhonePrefix` instance.  `countryCodeInput` is
`none` when no form input was bound, `some v` when the bound input holds
value `v`.  `toggleEvents` records the synthetic events dispatched on the
toggle element by `closeDropdown` (the observable outward effect that drives
the third-party open/close mechanism). -/
structure PhonePrefixState where
  items : List DropdownItem
  listIsOpen : Bool
  dropdownToggle : ToggleElement
  countryCodeInput : Option String
  selectedItem : Option Nat
  focusedItem : Option Nat
  searchQuery : String
  toggleEvents : List String
deriving Repr, DecidableEq

/-! ### JavaScript string primitives, over `String.data` -/

/-- The character class `[a-zA-Z]` of the source's regexes. -/
def isLetterChar (c : Char) : Bool :=
  (65 ≤ c.toNat && c.toNat ≤ 90) || (97 ≤ c.toNat && c.toNat ≤ 122)

/-- The character class `[0-9]` of the source's regexes. -/
def isDigitChar (c : Char) : Bool :=
  48 ≤ c.toNat && c.toNat ≤ 57

/-- JS `String.prototype.toLowerCase` on one character, for the ASCII range
the source feeds it (search keys `[a-zA-Z]`, country fields). -/
def toLowerChar (c : Char) : Char :=
  if 65 ≤ c.toNat && c.toNat ≤ 90 then Char.ofNat (c.toNat + 32) else c

/-- JS `s.toLowerCase()`. -/
def toLowerJS (s : String) : String := ⟨s.data.map toLowerChar⟩

/-- JS `s.slice(0, -1)`: the string without its last character. -/
def sliceDropLast (s : String) : String := ⟨s.data.dropLast⟩

/-- JS `s.startsWith(p)`. -/
def startsWithJS (s p : String) : Bool := p.data.isPrefixOf s.data

/-- `/^[a-zA-Z]$/.test(key)`: `key` is exactly one ASCII letter.  Source:
`const isLetter = (key: string): boolean => /^[a-zA-Z]$/.test(key)`. -/
def isLetter (key : String) : Bool :=
  match key.data with
  | [c] => isLetterChar c
  | _ => false

/-- `/^[0-9]$/.test(key)`: `key` is exactly one ASCII digit.  Source:
`const isDigit = (key: string): boolean => /^[0-9]$/.test(key)`. -/
def isDigit (key : String) : Bool :=
  match key.data with
  | [c] => isDigitChar c
  | _ => false

/-- JS `text.split(sep)` on a one-character separator: every occurrence
splits, empty segments are kept (`"a==b".split("=")` is `["a","","b"]`). -/
def splitCharJS (sep : Char) : List Char → List (List Char)
  | [] => [[]]
  | c :: cs =>
    let rest := splitCharJS sep cs
    if c = sep then [] :: rest
    else
      match rest with
      | r :: rs => (c :: r) :: rs
      | [] => [[c]]

/-- JS `text.match(/[^\r\n]+/g)`: the maximal nonempty runs of characters
other than CR and LF, in order (`null` for no match becomes the empty
list — `find` over either yields no line). -/
def traceLines (text : String) : List String :=
  ((splitCharJS '\x0d' text.data).flatMap (splitCharJS '\n')).filterMap
    (fun l => if l = [] then none else some ⟨l⟩)

/-! ### The dialing-prefix string -/

/-- The string the source computes three times as
`idd.root + (idd.suffixes.length === 1 ? idd.suffixes[0] : "")`:
the calling-code root, with the suffix appended only when there is exactly
one suffix. -/
def countryCodeString (c : Country) : String :=
  c.iddRoot ++ (if c.iddSuffixes.length == 1 then c.iddSuffixes.headD "" else "")

/-! ### The search query update (`handleDropdownSearch`, first half) -/

/-- The `searchQuery` update of `handleDropdownSearch`: Backspace trims the
last character; a single letter or digit key extends or restarts the query
exactly as the source's branch ladder does.  Note `isLetter`/`isDigit`
applied to `this.searchQuery` test whether the whole query is a single
letter/digit, and the letter-restart branch stores `e.key` without
lower-casing it. -/
def updateSearchQuery (query : String) (key : String) : String :=
  if key == "Backspace" then
    sliceDropLast query
  else if key.length == 1 && (isLetter key || isDigit key) then
    if isDigit key && isLetter query then
      key
    else if isLetter key then
      if isDigit query then key else query ++ toLowerJS key
    else if isDigit key then
      query ++ key
    else
      query
  else
    query

/-- The match predicate of `handleDropdownSearch`: the item's dialing-prefix
string starts with `"+" + searchTerm`, or its ISO code or common name starts
with `searchTerm`, all lower-cased. -/
def searchMatches (query : String) (it : DropdownItem) : Bool :=
  let countryCode := countryCodeString it.country
  let searchTerm := toLowerJS query
  startsWithJS (toLowerJS countryCode) ("+" ++ searchTerm)
    || startsWithJS (toLowerJS it.country.cca2) searchTerm
    || startsWithJS (toLowerJS it.country.nameCommon) searchTerm

/-- `this.items.find(...)` with the match predicate, as the index of the
first matching item (item references are indices, see the header note). -/
def findFirstMatch (items : List DropdownItem) (query : String) : Option Nat :=
  match items with
  | [] => none
  | it :: rest =>
    if searchMatches query it then some 0
    else (findFirstMatch rest query).map (· + 1)

/-- `handleDropdownSearch`: a no-op while the list is closed; otherwise
update the query, and when the resulting query is nonempty focus the first
matching item (`matchedItem?.element.focus()` — no match leaves focus
alone).  Focusing an item runs its `focusin` listener, which sets
`focusedItem`. -/
def handleDropdownSearch (s : PhonePrefixState) (key : String) : PhonePrefixState :=
  if !s.listIsOpen then s
  else
    let q := updateSearchQuery s.searchQuery key
    let s1 := { s with searchQuery := q }
    if q.length > 0 then
      match findFirstMatch s1.items q with
      | some i => { s1 with focusedItem := some i }
      | none => s1
    else
      s1

/-! ### Selection and navigation -/

/-- In-place mutation of the item object at index `i` of the items array
(TypeScript mutates the referenced object; here the list entry is replaced). -/
def listModify (l : List DropdownItem) (i : Nat) (f : DropdownItem → DropdownItem) :
    List DropdownItem :=
  match l, i with
  | [], _ => []
  | x :: xs, 0 => f x :: xs
  | x :: xs, n + 1 => x :: listModify xs n f

/-- `toggleItemSelected`: `classList.toggle("w--current", isSelected)` and
`setAttribute("aria-selected", String(isSelected))`. -/
def toggleItemSelected (it : DropdownItem) (isSelected : Bool) : DropdownItem :=
  { it with element := { it.element with
      selectedClass := isSelected,
      ariaSelected := some (if isSelected then "true" else "false") } }

/-- `updateDropdownToggle`: write the country's flag, dialing-prefix string
and name onto the toggle element. -/
def updateDropdownToggle (it : DropdownItem) (dropdownToggle : ToggleElement) :
    ToggleElement :=
  { dropdownToggle with
      flagSrc := it.country.flagsSvg,
      flagAlt := it.country.nameCommon ++ " Flag",
      valueText := countryCodeString it.country,
      ariaLabel := some it.country.nameCommon }

/-- `closeDropdown(focusToggle)`: optionally focus the toggle (which blurs
any focused item — its `focusout` listener clears `focusedItem`), then
dispatch synthetic `click` and `mouseup` events on the toggle to drive the
external open/close mechanism.  The class flip itself happens externally,
so `listIsOpen` is not touched here. -/
def closeDropdown (s : PhonePrefixState) (focusToggle : Bool) : PhonePrefixState :=
  let s1 := if focusToggle then { s with focusedItem := none } else s
  { s1 with toggleEvents := s1.toggleEvents ++ ["click", "mouseup"] }

/-- `handleItemSelect` on the item at index `i` (the reference passed in
TypeScript): no-op when it is already the selected item; otherwise deselect
the previous selection if any, select the new item, record it, update the
toggle, write the ISO code into the bound input when present, and close the
dropdown when the list is open. -/
def handleItemSelect (s : PhonePrefixState) (i : Nat) : PhonePrefixState :=
  if s.selectedItem == some i then s
  else
    let s1 :=
      match s.selectedItem with
      | some j => { s with items := listModify s.items j (fun it => toggleItemSelected it false) }
      | none => s
    let s2 := { s1 with
      items := listModify s1.items i (fun it => toggleItemSelected it true),
      selectedItem := some i }
    let s3 :=
      match s2.items[i]? with
      | some item =>
        { s2 with
            dropdownToggle := updateDropdownToggle item s2.dropdownToggle,
            countryCodeInput :=
              match s2.countryCodeInput with
              | some _ => some item.country.cca2
              | none => none }
      | none => s2
    if s3.listIsOpen then closeDropdown s3 true else s3

/-- `handleDropdownNavigation`: a no-op while the list is closed.  Space
clicks the focused item (its `click` listener runs `handleItemSelect`
synchronously); Tab closes the list (with `focusToggle := shiftKey`, and
Shift+Tab also prevents the default tab action — a browser default not
modelled); ArrowUp/ArrowDown compute `nextIndex = index ∓ 1`, clamp it below
at `0` and above at `items.length` (not `items.length - 1`), and focus
`items[nextIndex]` only when that entry exists (`nextItem?.element.focus()`). -/
def handleDropdownNavigation (s : PhonePrefixState) (key : String) (shiftKey : Bool) :
    PhonePrefixState :=
  if !s.listIsOpen then s
  else
    let isSpace := key == " "
    let isTab := key == "Tab"
    let isArrowUp := key == "ArrowUp"
    let isArrowDown := key == "ArrowDown"
    let s1 :=
      if isSpace then
        match s.focusedItem with
        | some i => handleItemSelect s i
        | none => s
      else s
    let s2 := if isTab then closeDropdown s1 shiftKey else s1
    if isArrowUp || isArrowDown then
      match s2.focusedItem with
      | none => s2
      | some fi =>
        if fi < s2.items.length then
          let nextIndex : Int := if isArrowUp then (fi : Int) - 1 else (fi : Int) + 1
          let nextIndex : Int := if nextIndex < 0 then 0 else nextIndex
          let nextIndex : Int :=
            if nextIndex ≥ (s2.items.length : Int) then (s2.items.length : Int) else nextIndex
          match s2.items[nextIndex.toNat]? with
          | some _ => { s2 with focusedItem := some nextIndex.toNat }
          | none => s2
        else s2
    else s2

/-- The keydown listener attached to the dropdown list: search first, then
navigation, on the same event. -/
def handleKeydown (s : PhonePrefixState) (key : String) (shiftKey : Bool) : PhonePrefixState :=
  handleDropdownNavigation (handleDropdownSearch s key) key shiftKey

/-! ### The two network fetches -/

/-- `fetchCountries`: the fetch/JSON-decode of the REST countries endpoint,
with its result as an `Except` (any thrown exception or rejection is the
`error` case).  The `catch` swallows every failure and yields `[]`. -/
def fetchCountries (response : Except String (List Country)) : List Country :=
  match response with
  | .ok countries => countries
  | .error _ => []

/-- `fetchUserLocation`'s parse of the settled trace text: find the first
line starting with `"loc"` and take the piece after the first `"="`
(`locLine.split("=")[1]`, `undefined` when there is no `"="`). -/
def parseLocLine (text : String) : Option String :=
  match (traceLines text).find? (fun line => startsWithJS line "loc") with
  | some locLine => ((splitCharJS '=' locLine.data).map (fun l => (⟨l⟩ : String)))[1]?
  | none => none

/-- `fetchUserLocation`: the fetch of the trace endpoint; the `catch`
swallows every failure and yields `undefined` (`none`). -/
def fetchUserLocation (response : Except String String) : Option String :=
  match response with
  | .ok text => parseLocLine text
  | .error _ => none

/-! ### Rendering -/

/-- A thrown JS error (a `TypeError` from dereferencing `undefined`/`null`). -/
inductive DomError where
  | typeError (msg : String)
deriving Repr, DecidableEq

/-- `createCountryItem`: clone the template item and set its flag image,
label text `` `${cca2} (${countryCode})` ``, `aria-label` and `title`.
Cloning keeps the template's remaining attributes. -/
def createCountryItem (country : Country) (listItemTemplate : ItemElement) : ItemElement :=
  let countryCode := countryCodeString country
  { listItemTemplate with
      flagSrc := country.flagsSvg,
      flagAlt := country.nameCommon ++ " Flag",
      valueText := country.cca2 ++ " (" ++ countryCode ++ ")",
      ariaLabel := some country.nameCommon,
      titleAttr := some country.nameCommon }

/-- `renderOptions`: `listChildren` is the child list of the `this.list`
element, `none` when that element itself is missing (then
`this.list.querySelector(...)` throws at the point of use).  The template
item is the first child matching the item selector; its absence is guarded
(`if (!listItem) return;` leaves the state untouched).  Otherwise one clone
per country is appended and the original template is removed.  Returns the
final child list and the new `items` array. -/
def renderOptions (listChildren : Option (List ItemElement)) (countries : List Country) :
    Except DomError (List ItemElement × List DropdownItem) :=
  match listChildren with
  | none => .error (.typeError "this.list is null")
  | some children =>
    match children.find? (fun el => el.itemMarked) with
    | none => .ok (children, [])
    | some listItem =>
      let items := countries.map
        (fun country => ({ element := createCountryItem country listItem,
                           country := country } : DropdownItem))
      .ok ((children ++ items.map (fun it => it.element)).erase listItem, items)

/-! ### Construction and initialization -/

/-- The `countries.map` of `renderOptions`: the items array it builds, one
cloned item per country. -/
def renderedItems (countries : List Country) (tmpl : ItemElement) : List DropdownItem :=
  countries.map (fun country => { element := createCountryItem country tmpl, country := country })

/-- The constructor's element lookups and first write: `querySelector` for
the toggle may return `null` (`none`), and
`this.dropdownToggle.setAttribute("aria-haspopup", "listbox")` then throws
at the point of use; with the toggle present it gets the attribute set. -/
def constructorRun (dropdownToggle : Option ToggleElement) : Except DomError ToggleElement :=
  match dropdownToggle with
  | none => .error (.typeError "this.dropdownToggle is null")
  | some t => .ok { t with ariaHaspopup := some "listbox" }

/-- JS `countryCode || defaultCountryCode` on `string | undefined` values:
`undefined` and `""` are falsy. -/
def jsStringOr (a b : Option String) : Option String :=
  match a with
  | some s => if s == "" then b else some s
  | none => b

/-- `this.items.find(item => item.country.cca2 === countryCode)`, as the
index of the first item whose ISO code equals `code`. -/
def findSelectedIndex (items : List DropdownItem) (code : String) : Option Nat :=
  match items with
  | [] => none
  | it :: rest =>
    if it.country.cca2 == code then some 0
    else (findSelectedIndex rest code).map (· + 1)

/-- `init`: fetch countries, render, resolve the effective country code as
detected location or else the constructor default, and select the first
rendered item whose `cca2` equals it, if any.  (`addEventListeners` and
`observeDropdownList` only wire callbacks and change no modelled state.)
When the effective code is `undefined`, `item.country.cca2 === countryCode`
is false for every item, so no selection occurs. -/
def init (s : PhonePrefixState) (listChildren : Option (List ItemElement))
    (countriesResp : Except String (List Country)) (locResp : Except String String)
    (defaultCountryCode : Option String) : Except DomError PhonePrefixState :=
  let countries := fetchCountries countriesResp
  match renderOptions listChildren countries with
  | .error e => .error e
  | .ok (_, items) =>
    let s1 := { s with items := items }
    let countryCode := fetchUserLocation locResp
    let countryCode := jsStringOr countryCode defaultCountryCode
    let sel :=
      match countryCode with
      | some code => findSelectedIndex s1.items code
      | none => none
    match sel with
    | some i => .ok (handleItemSelect s1 i)
    | none => .ok s1

/-- The mutation-observer callback of `observeDropdownList`, fired with the
list element's current possession of the `w--open` class: record it in
`listIsOpen`; when the list is now open, clear the search query and focus
the selected item's element, else `this.items[0].element` — which throws a
`TypeError` when `items` is empty (`this.items[0]` is `undefined`). -/
def observeDropdownListHandler (s : PhonePrefixState) (listHasOpenClass : Bool) :
    Except DomError PhonePrefixState :=
  let s1 := { s with listIsOpen := listHasOpenClass }
  if s1.listIsOpen then
    let s2 := { s1 with searchQuery := "" }
    match s2.selectedItem with
    | some i => .ok { s2 with focusedItem := some i }
    | none =>
      match s2.items with
      | [] => .error (.typeError "this.items(0) is undefined")
      | _ :: _ => .ok { s2 with focusedItem := some 0 }
  else
    .ok s1

/-! ### Stated properties -/

/-- The homogeneity property the specification asserts of `searchQuery`:
only lower-cased letters, or only digits, never a mix. -/
def queryHomogeneous (q : String) : Prop :=
  (∀ c ∈ q.data, 97 ≤ c.toNat ∧ c.toNat ≤ 122) ∨ (∀ c ∈ q.data, isDigitChar c = true)

instance (q : String) : Decidable (queryHomogeneous q) := by
  unfold queryHomogeneous; infer_instance

/-- Every selection-marked item is the recorded `selectedItem`; since
`selectedItem` is a single index, at most one item is marked. -/
def selectionAligned (s : PhonePrefixState) : Prop :=
  ∀ j it, s.items[j]? = some it → it.element.selectedClass = true → s.selectedItem = some j

/-! ### Sample data for concrete runs -/

/-- A country whose calling code has two suffixes (so the dialing-prefix
string is the raw root). -/
def sampleCountryUS : Country :=
  { nameCommon := "United States", flagsSvg := "us.svg", iddRoot := "+1",
    iddSuffixes := ["201", "202"], cca2 := "US" }

/-- A country whose calling code has exactly one suffix. -/
def sampleCountryFR : Country :=
  { nameCommon := "France", flagsSvg := "fr.svg", iddRoot := "+3",
    iddSuffixes := ["3"], cca2 := "FR" }

/-- The template item element (`data-phone-prefix-element="item"`). -/
def sampleTemplate : ItemElement :=
  { itemMarked := true, flagSrc := "", flagAlt := "", valueText := "",
    ariaLabel := none, titleAttr := none, selectedClass := false, ariaSelected := none }

/-- A list child that does not carry the item marker attribute. -/
def plainChild : ItemElement := { sampleTemplate with itemMarked := false }

/-- A toggle element with nothing written on it yet. -/
def sampleToggle : ToggleElement :=
  { ariaHaspopup := none, ariaLabel := none, flagSrc := "", flagAlt := "", valueText := "" }

/-- Two rendered items (US, then FR), as `renderOptions` would build them. -/
def sampleItems : List DropdownItem :=
  [ { element := createCountryItem sampleCountryUS sampleTemplate, country := sampleCountryUS },
    { element := createCountryItem sampleCountryFR sampleTemplate, country := sampleCountryFR } ]

/-- An open widget over `sampleItems`, nothing selected, first item focused. -/
def sampleOpenState : PhonePrefixState :=
  { items := sampleItems, listIsOpen := true, dropdownToggle := sampleToggle,
    countryCodeInput := some "", selectedItem := none, focusedItem := some 0,
    searchQuery := "", toggleEvents := [] }

/-- A fresh widget before `init` ran: no items, list closed. -/
def freshState : PhonePrefixState :=
  { items := [], listIsOpen := false, dropdownToggle := sampleToggle,
    countryCodeInput := some "", selectedItem := none, focusedItem := none,
    searchQuery := "", toggleEvents := [] }

/-! ### Helper lemmas -/

theorem isLetterChar_toLowerChar (c : Char) (h : isLetterChar c = true) :
    97 ≤ (toLowerChar c).toNat ∧ (toLowerChar c).toNat ≤ 122 := by
  unfold isLetterChar at h
  unfold toLowerChar
  split
  · rename_i h2
    simp only [Bool.and_eq_true, decide_eq_true_eq] at h2
    have hv : (Char.ofNat (c.toNat + 32)).toNat = c.toNat + 32 := by
      unfold Char.ofNat
      rw [dif_pos]
      · rfl
      · exact Or.inl (by omega)
    rw [hv]
    omega
  · rename_i h2
    simp only [Bool.and_eq_true, decide_eq_true_eq, Bool.or_eq_true] at h h2
    omega

theorem letterOrDigit_toLowerChar (c : Char) (h : (isLetterChar c || isDigitChar c) = true) :
    (isLetterChar (toLowerChar c) || isDigitChar (toLowerChar c)) = true := by
  rcases Bool.or_eq_true _ _ |>.mp h with hl | hd
  · have := isLetterChar_toLowerChar c hl
    simp only [Bool.or_eq_true, isLetterChar, Bool.and_eq_true, decide_eq_true_eq]
    left; right; omega
  · unfold toLowerChar
    unfold isDigitChar at hd ⊢
    simp only [decide_eq_true_eq, Bool.and_eq_true] at hd
    rw [if_neg]
    · exact h
    · simp only [Bool.and_eq_true, decide_eq_true_eq, not_and]
      omega

/-- Claim C6: both network fetches swallow every failure at the boundary:
for any exception or rejected response, `fetchCountries` returns the empty
list and `fetchUserLocation` returns `undefined`; both are total functions
into plain values, so no error propagates and nothing is retried or
reported. -/
theorem c6_fetch_failures_swallowed (err1 err2 : String) :
    fetchCountries (.error err1) = [] ∧ fetchUserLocation (.error err2) = none :=
  ⟨rfl, rfl⟩

/-- Claim C10: `handleDropdownSearch` never changes the selection state or
the item list: for every keydown it processes, `items` (and so each item's
country data), `selectedItem`, `listIsOpen`, the bound input value, the
toggle element and the dispatched toggle events are all unchanged — only
`searchQuery` and the focused item may change. -/
theorem c10_search_frame (s : PhonePrefixState) (key : String) :
    (handleDropdownSearch s key).items = s.items ∧
    (handleDropdownSearch s key).selectedItem = s.selectedItem ∧
    (handleDropdownSearch s key).listIsOpen = s.listIsOpen ∧
    (handleDropdownSearch s key).countryCodeInput = s.countryCodeInput ∧
    (handleDropdownSearch s key).dropdownToggle = s.dropdownToggle ∧
    (handleDropdownSearch s key).toggleEvents = s.toggleEvents := by
  unfold handleDropdownSearch
  split
  · exact ⟨rfl, rfl, rfl, rfl, rfl, rfl⟩
  · dsimp only
    split
    · split <;> exact ⟨rfl, rfl, rfl, rfl, rfl, rfl⟩
    · exact ⟨rfl, rfl, rfl, rfl, rfl, rfl⟩

theorem isLetter_iff (key : String) :
    isLetter key = true ↔ ∃ c, key.data = [c] ∧ isLetterChar c = true := by
  obtain ⟨data⟩ := key
  unfold isLetter
  match data with
  | [] => simp
  | [c] => simp
  | c :: d :: rest => simp

theorem isDigit_iff (key : String) :
    isDigit key = true ↔ ∃ c, key.data = [c] ∧ isDigitChar c = true := by
  obtain ⟨data⟩ := key
  unfold isDigit
  match data with
  | [] => simp
  | [c] => simp
  | c :: d :: rest => simp

theorem not_isDigitChar_of_isLetterChar (c : Char) (h : isLetterChar c = true) :
    isDigitChar c = false := by
  unfold isLetterChar at h
  unfold isDigitChar
  simp only [Bool.or_eq_true, Bool.and_eq_true, decide_eq_true_eq] at h ⊢
  simp only [decide_eq_false_iff_not, Bool.and_eq_false_iff]
  omega

theorem updateSearchQuery_chars (q key : String)
    (h : ∀ c ∈ q.data, (isLetterChar c || isDigitChar c) = true) :
    ∀ c ∈ (updateSearchQuery q key).data, (isLetterChar c || isDigitChar c) = true := by
  unfold updateSearchQuery
  split
  · intro c hc
    exact h c (List.dropLast_subset _ hc)
  · split
    · split
      · rename_i hcond hdl
        intro c hc
        obtain ⟨d, hdata, hdig⟩ := isDigit_iff key |>.mp (by
          simp only [Bool.and_eq_true] at hdl; exact hdl.1)
        rw [hdata] at hc
        simp only [List.mem_singleton] at hc
        subst hc
        simp [hdig]
      · split
        · split
          · rename_i hcond hnot hlet hdq
            intro c hc
            obtain ⟨d, hdata, hl⟩ := isLetter_iff key |>.mp hlet
            rw [hdata] at hc
            simp only [List.mem_singleton] at hc
            subst hc
            simp [hl]
          · rename_i hcond hnot hlet hdq
            intro c hc
            rw [String.data_append] at hc
            rcases List.mem_append.mp hc with hq | hk
            · exact h c hq
            · obtain ⟨d, hdata, hl⟩ := isLetter_iff key |>.mp hlet
              simp only [toLowerJS, hdata, List.map] at hk
              simp only [List.mem_singleton] at hk
              subst hk
              exact letterOrDigit_toLowerChar d (by simp [hl])
        · split
          · rename_i hcond hnot hnl hdig
            intro c hc
            rw [String.data_append] at hc
            rcases List.mem_append.mp hc with hq | hk
            · exact h c hq
            · obtain ⟨d, hdata, hd2⟩ := isDigit_iff key |>.mp hdig
              rw [hdata] at hk
              simp only [List.mem_singleton] at hk
              subst hk
              simp [hd2]
          · exact h
    · exact h

theorem searchQuery_handleDropdownSearch (s : PhonePrefixState) (key : String) :
    (handleDropdownSearch s key).searchQuery =
      if s.listIsOpen then updateSearchQuery s.searchQuery key else s.searchQuery := by
  unfold handleDropdownSearch
  split
  · rename_i hcl
    have : s.listIsOpen = false := by
      cases hls : s.listIsOpen
      · rfl
      · rw [hls] at hcl; exact absurd hcl (by simp)
    rw [this]
    simp
  · rename_i hop
    have hls : s.listIsOpen = true := by
      cases hls : s.listIsOpen
      · rw [hls] at hop; exact absurd rfl hop
      · rfl
    dsimp only
    split
    · split <;> simp [hls]
    · simp [hls]

theorem singleChar_ne_Backspace (key : String) (c : Char) (hdata : key.data = [c]) :
    (key == "Backspace") = false := by
  apply beq_eq_false_iff_ne.mpr
  intro heq
  rw [heq] at hdata
  have h9 : ("Backspace" : String).data.length = 9 := by decide
  rw [hdata] at h9
  simp at h9

theorem updateSearchQuery_digit_reset (q key : String)
    (hk : isDigit key = true) (hq : isLetter q = true) :
    updateSearchQuery q key = key := by
  obtain ⟨c, hdata, hdig⟩ := isDigit_iff key |>.mp hk
  unfold updateSearchQuery
  rw [if_neg (by rw [singleChar_ne_Backspace key c hdata]; exact Bool.false_ne_true)]
  rw [if_pos]
  · rw [if_pos]
    simp [hk, hq]
  · simp [String.length, hdata, hk]

theorem updateSearchQuery_letter_reset (q key : String)
    (hk : isLetter key = true) (hq : isDigit q = true) :
    updateSearchQuery q key = key := by
  obtain ⟨c, hdata, hlet⟩ := isLetter_iff key |>.mp hk
  have hkd : isDigit key = false := by
    unfold isDigit
    rw [hdata]
    exact not_isDigitChar_of_isLetterChar c hlet
  unfold updateSearchQuery
  rw [if_neg (by rw [singleChar_ne_Backspace key c hdata]; exact Bool.false_ne_true)]
  rw [if_pos]
  · rw [if_neg (by simp [hkd])]
    rw [if_pos (by simp [hk])]
    rw [if_pos hq]
  · simp [String.length, hdata, hk]

/-- Claim C1 counterexample: the stated invariant fails on the code.  From an
open widget with an empty query, the keydown sequence a, b, 1 leaves
`searchQuery = "ab1"`, which mixes letters with a digit: the digit did not
restart the two-letter query, because `isLetter(this.searchQuery)` tests the
regex `^[a-zA-Z]$` and is false for any query longer than one character. -/
theorem c1_counterexample :
    (handleDropdownSearch (handleDropdownSearch (handleDropdownSearch sampleOpenState "a")
        "b") "1").searchQuery = "ab1"
    ∧ ¬ queryHomogeneous "ab1" := by decide

/-- Claim C1 (amended): after any sequence of keydown events handled by
`handleDropdownSearch`, the search query consists of ASCII letters and
digits only, but letters and digits may mix; the restart-with-the-new-
character rule holds exactly when the prior query is a single character of
the other mode (`isLetter`/`isDigit` match only single-character strings):
a digit typed over a single-letter query restarts the query to that digit,
and a letter typed over a single-digit query restarts it to that letter,
keeping the letter's original case. -/
theorem c1_search_query_amended (keys : List String) (s : PhonePrefixState) (key : String)
    (hq : ∀ c ∈ s.searchQuery.data, (isLetterChar c || isDigitChar c) = true) :
    (∀ c ∈ ((keys.foldl handleDropdownSearch s).searchQuery).data,
        (isLetterChar c || isDigitChar c) = true) ∧
    (s.listIsOpen = true → isDigit key = true → isLetter s.searchQuery = true →
      (handleDropdownSearch s key).searchQuery = key) ∧
    (s.listIsOpen = true → isLetter key = true → isDigit s.searchQuery = true →
      (handleDropdownSearch s key).searchQuery = key) := by
  refine ⟨?_, ?_, ?_⟩
  · induction keys generalizing s with
    | nil => exact hq
    | cons k rest ih =>
      simp only [List.foldl_cons]
      apply ih
      rw [searchQuery_handleDropdownSearch]
      split
      · exact updateSearchQuery_chars s.searchQuery k hq
      · exact hq
  · intro hopen hk hql
    rw [searchQuery_handleDropdownSearch, if_pos hopen]
    exact updateSearchQuery_digit_reset s.searchQuery key hk hql
  · intro hopen hk hqd
    rw [searchQuery_handleDropdownSearch, if_pos hopen]
    exact updateSearchQuery_letter_reset s.searchQuery key hk hqd

/-- Claim C1 witness: typing the digit 1 over the single-letter query "a"
in an open list restarts the query to "1". -/
theorem c1_search_query_amended_witness :
    (handleDropdownSearch { sampleOpenState with searchQuery := "a" } "1").searchQuery = "1" :=
  (c1_search_query_amended [] { sampleOpenState with searchQuery := "a" } "1"
    (by decide)).2.1 rfl (by decide) (by decide)

/-- Claim C5: while the list is open and the item at index `i` is focused,
ArrowUp moves focus to index `i - 1` clamped at 0 (from index 0 focus stays
at 0), and ArrowDown moves focus to `i + 1` when that is a valid index; from
the last item the next index is clamped to `items.length` (not
`items.length - 1`), `items[nextIndex]` is then undefined, and focus does
not move onto any valid item (it stays on index `i`). -/
theorem c5_arrow_navigation (s : PhonePrefixState) (i : Nat)
    (hopen : s.listIsOpen = true) (hfoc : s.focusedItem = some i)
    (hi : i < s.items.length) :
    ((handleDropdownNavigation s "ArrowUp" false).focusedItem = some (i - 1)) ∧
    (i + 1 < s.items.length →
      (handleDropdownNavigation s "ArrowDown" false).focusedItem = some (i + 1)) ∧
    (i + 1 = s.items.length →
      (handleDropdownNavigation s "ArrowDown" false).focusedItem = some i) := by
  refine ⟨?_, ?_, ?_⟩
  · unfold handleDropdownNavigation
    simp only [hopen, hfoc]
    simp
    rw [hfoc]
    dsimp only
    rw [if_pos hi]
    have hidx : (if (s.items.length : Int) ≤ (if i = 0 then (0 : Int) else (i : Int) - 1)
          then ((s.items.length : Int)) else (if i = 0 then (0 : Int) else (i : Int) - 1)).toNat
        = i - 1 := by
      split <;> split <;> omega
    rw [hidx]
    rw [List.getElem?_eq_getElem (show i - 1 < s.items.length by omega)]
  · intro hlt
    unfold handleDropdownNavigation
    simp only [hopen, hfoc]
    simp
    rw [hfoc]
    dsimp only
    rw [if_pos hi]
    have hidx : (if (s.items.length : Int) ≤ (if (i : Int) + 1 < 0 then (0 : Int) else (i : Int) + 1)
          then ((s.items.length : Int))
          else (if (i : Int) + 1 < 0 then (0 : Int) else (i : Int) + 1)).toNat = i + 1 := by
      repeat' split
      all_goals omega
    rw [hidx]
    rw [List.getElem?_eq_getElem hlt]
  · intro heq
    unfold handleDropdownNavigation
    simp only [hopen, hfoc]
    simp
    rw [hfoc]
    dsimp only
    rw [if_pos hi]
    have hidx : (if (s.items.length : Int) ≤ (if (i : Int) + 1 < 0 then (0 : Int) else (i : Int) + 1)
          then ((s.items.length : Int))
          else (if (i : Int) + 1 < 0 then (0 : Int) else (i : Int) + 1)).toNat = s.items.length := by
      repeat' split
      all_goals omega
    rw [hidx]
    rw [List.getElem?_eq_none (le_refl s.items.length)]
    exact hfoc

/-- Claim C5 witness: ArrowDown from the last of two items leaves focus on
that last item. -/
theorem c5_arrow_navigation_witness :
    (handleDropdownNavigation { sampleOpenState with focusedItem := some 1 } "ArrowDown"
        false).focusedItem = some 1 :=
  (c5_arrow_navigation { sampleOpenState with focusedItem := some 1 } 1 rfl rfl
    (by decide)).2.2 (by decide)

/-- Claim C9: when the mutation observer fires with the list open, the
handler clears the search query and focuses the selected item's element, or
`items[0].element` when nothing is selected; when nothing is selected and no
item was rendered it dereferences the `element` of the undefined entry
`items[0]` and throws, so the handler is only safe when an item is rendered
or selected. -/
theorem c9_observe_open (s : PhonePrefixState) :
    (∀ i, s.selectedItem = some i →
      observeDropdownListHandler s true =
        .ok { s with listIsOpen := true, searchQuery := "", focusedItem := some i }) ∧
    (s.selectedItem = none → s.items ≠ [] →
      observeDropdownListHandler s true =
        .ok { s with listIsOpen := true, searchQuery := "", focusedItem := some 0 }) ∧
    (s.selectedItem = none → s.items = [] →
      observeDropdownListHandler s true = .error (.typeError "this.items(0) is undefined")) := by
  refine ⟨?_, ?_, ?_⟩
  · intro i hsel
    unfold observeDropdownListHandler
    dsimp only
    rw [if_pos rfl, hsel]
  · intro hsel hne
    unfold observeDropdownListHandler
    dsimp only
    rw [if_pos rfl, hsel]
    cases hitems : s.items with
    | nil => exact absurd hitems hne
    | cons a rest => rfl
  · intro hsel hempty
    unfold observeDropdownListHandler
    dsimp only
    rw [if_pos rfl, hsel, hempty]

/-- Claim C9 witness: opening the list on a fresh widget with no rendered
items and no selection throws a TypeError. -/
theorem c9_observe_open_witness :
    observeDropdownListHandler freshState true = .error (.typeError "this.items(0) is undefined") :=
  (c9_observe_open freshState).2.2 rfl rfl

theorem findSelectedIndex_some (items : List DropdownItem) (code : String) (i : Nat)
    (h : findSelectedIndex items code = some i) :
    ∃ it, items[i]? = some it ∧ it.country.cca2 = code := by
  induction items generalizing i with
  | nil => exact absurd h (by simp [findSelectedIndex])
  | cons a rest ih =>
    unfold findSelectedIndex at h
    split at h
    · rename_i hc
      obtain rfl : (0 : Nat) = i := Option.some.inj h
      exact ⟨a, by simp, by simpa using hc⟩
    · obtain ⟨j, hj, rfl⟩ := Option.map_eq_some'.mp h
      obtain ⟨it, hit, hcc⟩ := ih j hj
      exact ⟨it, by simpa using hit, hcc⟩

theorem findSelectedIndex_none (items : List DropdownItem) (code : String)
    (h : ∀ it ∈ items, it.country.cca2 ≠ code) :
    findSelectedIndex items code = none := by
  induction items with
  | nil => rfl
  | cons a rest ih =>
    unfold findSelectedIndex
    rw [if_neg (show ¬(a.country.cca2 == code) = true from fun hc =>
      h a (List.mem_cons_self a rest) (by simpa using hc))]
    rw [ih (fun it hit => h it (List.mem_cons_of_mem a hit))]
    rfl

/-- Claim C2: during `init` the effective country code is the code returned
by `fetchUserLocation` when that is defined and non-empty, otherwise the
constructor-supplied default; when some rendered item's `country.cca2`
equals that effective code, `handleItemSelect` is invoked on the first such
item, and when no rendered item matches (or the effective code is
undefined), no selection occurs. -/
theorem c2_init_selection (s : PhonePrefixState) (listChildren : Option (List ItemElement))
    (cResp : Except String (List Country)) (lResp : Except String String)
    (dflt : Option String) (children : List ItemElement) (items : List DropdownItem)
    (hrender : renderOptions listChildren (fetchCountries cResp) = .ok (children, items)) :
    (∀ l, fetchUserLocation lResp = some l → l ≠ "" →
        jsStringOr (fetchUserLocation lResp) dflt = some l) ∧
    ((fetchUserLocation lResp = none ∨ fetchUserLocation lResp = some "") →
        jsStringOr (fetchUserLocation lResp) dflt = dflt) ∧
    (∀ code i, jsStringOr (fetchUserLocation lResp) dflt = some code →
        findSelectedIndex items code = some i →
        (∃ it, items[i]? = some it ∧ it.country.cca2 = code) ∧
        init s listChildren cResp lResp dflt = .ok (handleItemSelect { s with items := items } i)) ∧
    (∀ code, jsStringOr (fetchUserLocation lResp) dflt = some code →
        (∀ it ∈ items, it.country.cca2 ≠ code) →
        init s listChildren cResp lResp dflt = .ok { s with items := items }) ∧
    (jsStringOr (fetchUserLocation lResp) dflt = none →
        init s listChildren cResp lResp dflt = .ok { s with items := items }) := by
  refine ⟨?_, ?_, ?_, ?_, ?_⟩
  · intro l hl hne
    rw [hl]
    unfold jsStringOr
    dsimp only
    rw [if_neg (by simp [hne])]
  · intro hl
    rcases hl with hl | hl <;> rw [hl] <;> rfl
  · intro code i hcode hfind
    refine ⟨findSelectedIndex_some items code i hfind, ?_⟩
    unfold init
    dsimp only
    rw [hrender]
    dsimp only
    rw [hcode]
    dsimp only
    rw [hfind]
  · intro code hcode hnone
    unfold init
    dsimp only
    rw [hrender]
    dsimp only
    rw [hcode]
    dsimp only
    rw [findSelectedIndex_none items code hnone]
  · intro hcode
    unfold init
    dsimp only
    rw [hrender]
    dsimp only
    rw [hcode]

/-- Claim C2 witness: with the location fetch failing and default "US"
present among the fetched countries, `init` selects the "US" item. -/
theorem c2_init_selection_witness :
    init freshState (some [sampleTemplate]) (.ok [sampleCountryUS, sampleCountryFR])
        (.error "network down") (some "US")
      = .ok (handleItemSelect { freshState with items := sampleItems } 0) :=
  ((c2_init_selection freshState (some [sampleTemplate])
      (.ok [sampleCountryUS, sampleCountryFR]) (.error "network down") (some "US")
      (sampleItems.map (fun it => it.element)) sampleItems (by rfl)).2.2.1
    "US" 0 rfl (by decide)).2

/-- Claim C8 counterexample: the claim asserts the missing template item is
not guarded and fails at the point of use, but `renderOptions` checks
`if (!listItem) return;` — with a list whose children carry no item marker
it returns successfully, leaving the children untouched and the items array
empty, with no failure at any point of use. -/
theorem c8_counterexample :
    renderOptions (some [plainChild]) [sampleCountryUS] = .ok ([plainChild], []) := by
  rfl

/-- Claim C8 (amended): absence of the toggle or of the list element is not
guarded — the constructor throws at `dropdownToggle.setAttribute` when the
toggle is missing, and `renderOptions` throws at `this.list.querySelector`
when the list element is missing — but absence of a matched template item
is defensively handled: `renderOptions` returns early and the items stay
empty. -/
theorem c8_amended :
    (constructorRun none = .error (.typeError "this.dropdownToggle is null")) ∧
    (∀ t : ToggleElement, constructorRun (some t) = .ok { t with ariaHaspopup := some "listbox" }) ∧
    (∀ countries : List Country,
      renderOptions none countries = .error (.typeError "this.list is null")) ∧
    (∀ (children : List ItemElement) (countries : List Country),
      children.find? (fun el => el.itemMarked) = none →
      renderOptions (some children) countries = .ok (children, [])) := by
  refine ⟨rfl, fun t => rfl, fun countries => rfl, ?_⟩
  intro children countries hfind
  unfold renderOptions
  dsimp only
  rw [hfind]

/-- Claim C8 witness: rendering into a list with no template item returns
successfully with no items. -/
theorem c8_amended_witness :
    renderOptions (some []) [sampleCountryFR] = .ok ([], []) :=
  c8_amended.2.2.2 [] [sampleCountryFR] rfl

theorem findTemplate_mem (children : List ItemElement) (tmpl : ItemElement)
    (h : children.find? (fun el => el.itemMarked) = some tmpl) : tmpl ∈ children :=
  List.mem_of_find?_eq_some h

/-- Claim C7: `renderOptions` creates exactly one item per fetched country
by cloning the template item, setting the flag image source to the
country's flag URL and its alt text to "(name) Flag", the label text to
"(ISO) ((prefix))" where the prefix is the calling-code root concatenated
with the suffix only when there is exactly one suffix (the raw root
otherwise), and aria-label and title to the common name; the original
template item is removed from the list after cloning, leaving the clones
appended after the other children. -/
theorem c7_render_options (children : List ItemElement) (tmpl : ItemElement)
    (countries : List Country)
    (hfind : children.find? (fun el => el.itemMarked) = some tmpl) :
    renderOptions (some children) countries =
      .ok ((children.erase tmpl) ++ (renderedItems countries tmpl).map (fun it => it.element),
           renderedItems countries tmpl) ∧
    (renderedItems countries tmpl).length = countries.length ∧
    (∀ (k : Nat) (c : Country), countries[k]? = some c →
      ∃ it : DropdownItem, (renderedItems countries tmpl)[k]? = some it ∧
        it.country = c ∧
        it.element.flagSrc = c.flagsSvg ∧
        it.element.flagAlt = c.nameCommon ++ " Flag" ∧
        it.element.valueText = c.cca2 ++ " (" ++ countryCodeString c ++ ")" ∧
        it.element.ariaLabel = some c.nameCommon ∧
        it.element.titleAttr = some c.nameCommon) ∧
    (∀ c : Country,
      (∀ sfx, c.iddSuffixes = [sfx] → countryCodeString c = c.iddRoot ++ sfx) ∧
      (c.iddSuffixes.length ≠ 1 → countryCodeString c = c.iddRoot)) ∧
    (children = [tmpl] →
      renderOptions (some children) countries =
        .ok ((renderedItems countries tmpl).map (fun it => it.element),
             renderedItems countries tmpl)) := by
  refine ⟨?_, ?_, ?_, ?_, ?_⟩
  · unfold renderOptions
    dsimp only
    rw [hfind]
    dsimp only
    rw [List.erase_append_left _ (findTemplate_mem children tmpl hfind)]
    rfl
  · simp [renderedItems]
  · intro k c hk
    refine ⟨{ element := createCountryItem c tmpl, country := c }, ?_, rfl, rfl, rfl, rfl, rfl, rfl⟩
    unfold renderedItems
    rw [List.getElem?_map]
    rw [hk]
    rfl
  · intro c
    constructor
    · intro sfx hs
      unfold countryCodeString
      rw [hs]
      rfl
    · intro hne
      unfold countryCodeString
      rw [if_neg (by simpa using hne)]
      simp
  · intro hsingle
    subst hsingle
    unfold renderOptions
    dsimp only
    rw [hfind]
    dsimp only
    rw [List.erase_append_left _ (findTemplate_mem [tmpl] tmpl hfind)]
    simp [renderedItems]

/-- Claim C7 witness: rendering two sample countries into a list holding
only the template yields exactly the two cloned items as children. -/
theorem c7_render_options_witness :
    renderOptions (some [sampleTemplate]) [sampleCountryUS, sampleCountryFR]
      = .ok ((renderedItems [sampleCountryUS, sampleCountryFR] sampleTemplate).map
              (fun it => it.element),
             renderedItems [sampleCountryUS, sampleCountryFR] sampleTemplate) :=
  (c7_render_options [sampleTemplate] sampleTemplate [sampleCountryUS, sampleCountryFR]
      (by rfl)).2.2.2.2 rfl

theorem listModify_length (l : List DropdownItem) (i : Nat) (f : DropdownItem → DropdownItem) :
    (listModify l i f).length = l.length := by
  induction l generalizing i with
  | nil => rfl
  | cons a rest ih =>
    cases i with
    | zero => rfl
    | succ n => simpa [listModify] using ih n

theorem listModify_getElem? (l : List DropdownItem) (i k : Nat) (f : DropdownItem → DropdownItem) :
    (listModify l i f)[k]? = if k = i then Option.map f l[k]? else l[k]? := by
  induction l generalizing i k with
  | nil =>
    simp only [listModify]
    split <;> simp
  | cons a rest ih =>
    cases i with
    | zero =>
      cases k with
      | zero => simp [listModify]
      | succ m => simp [listModify]
    | succ n =>
      cases k with
      | zero => simp [listModify]
      | succ m =>
        simp only [listModify, List.getElem?_cons_succ]
        rw [ih n m]
        by_cases hkm : m = n
        · simp [hkm]
        · simp [hkm]

theorem closeDropdown_frame (s : PhonePrefixState) (b : Bool) :
    (closeDropdown s b).items = s.items ∧
    (closeDropdown s b).selectedItem = s.selectedItem ∧
    (closeDropdown s b).dropdownToggle = s.dropdownToggle ∧
    (closeDropdown s b).countryCodeInput = s.countryCodeInput ∧
    (closeDropdown s b).listIsOpen = s.listIsOpen ∧
    (closeDropdown s b).searchQuery = s.searchQuery ∧
    (closeDropdown s b).toggleEvents = s.toggleEvents ++ ["click", "mouseup"] := by
  cases b <;> exact ⟨rfl, rfl, rfl, rfl, rfl, rfl, rfl⟩

theorem handleItemSelect_spec (s : PhonePrefixState) (i : Nat) (it : DropdownItem)
    (hne : s.selectedItem ≠ some i) (hit : s.items[i]? = some it) :
    (handleItemSelect s i).selectedItem = some i ∧
    (handleItemSelect s i).items.length = s.items.length ∧
    (handleItemSelect s i).items[i]? = some (toggleItemSelected it true) ∧
    (∀ j jt, s.selectedItem = some j → s.items[j]? = some jt →
      (handleItemSelect s i).items[j]? = some (toggleItemSelected jt false)) ∧
    (∀ k, k ≠ i → s.selectedItem ≠ some k → (handleItemSelect s i).items[k]? = s.items[k]?) ∧
    (handleItemSelect s i).dropdownToggle
      = updateDropdownToggle (toggleItemSelected it true) s.dropdownToggle ∧
    (handleItemSelect s i).countryCodeInput
      = (match s.countryCodeInput with
          | some _ => some it.country.cca2
          | none => none) ∧
    (handleItemSelect s i).toggleEvents
      = (if s.listIsOpen then s.toggleEvents ++ ["click", "mouseup"] else s.toggleEvents) := by
  have hguard : (s.selectedItem == some i) = false := beq_eq_false_iff_ne.mpr hne
  unfold handleItemSelect
  rw [hguard]
  rw [if_neg Bool.false_ne_true]
  cases hsel : s.selectedItem with
  | none =>
    have hmi : (listModify s.items i (fun x => toggleItemSelected x true))[i]?
        = some (toggleItemSelected it true) := by
      rw [listModify_getElem?, if_pos rfl, hit]
      rfl
    dsimp only
    rw [hmi]
    dsimp only
    cases hopen : s.listIsOpen with
    | true =>
      rw [if_pos rfl]
      refine ⟨(closeDropdown_frame _ true).2.1, ?_, ?_, ?_, ?_, ?_, ?_, ?_⟩
      · rw [(closeDropdown_frame _ true).1]
        exact listModify_length s.items i _
      · rw [(closeDropdown_frame _ true).1]
        exact hmi
      · intro j jt hj
        exact absurd hj (by simp)
      · intro k hk hks
        rw [(closeDropdown_frame _ true).1]
        dsimp only
        rw [listModify_getElem?, if_neg hk]
      · exact (closeDropdown_frame _ true).2.2.1
      · exact (closeDropdown_frame _ true).2.2.2.1
      · rw [(closeDropdown_frame _ true).2.2.2.2.2.2, if_pos rfl]
    | false =>
      rw [if_neg (by simp)]
      refine ⟨rfl, listModify_length s.items i _, hmi, ?_, ?_, rfl, rfl, rfl⟩
      · intro j jt hj
        exact absurd hj (by simp)
      · intro k hk hks
        dsimp only
        rw [listModify_getElem?, if_neg hk]
  | some j =>
    have hji : j ≠ i := fun h => hne (by rw [hsel, h])
    have hmi : (listModify (listModify s.items j (fun x => toggleItemSelected x false)) i
        (fun x => toggleItemSelected x true))[i]? = some (toggleItemSelected it true) := by
      rw [listModify_getElem?, if_pos rfl, listModify_getElem?,
        if_neg (fun h => hji h.symm), hit]
      rfl
    dsimp only
    rw [hmi]
    dsimp only
    cases hopen : s.listIsOpen with
    | true =>
      rw [if_pos rfl]
      refine ⟨(closeDropdown_frame _ true).2.1, ?_, ?_, ?_, ?_, ?_, ?_, ?_⟩
      · rw [(closeDropdown_frame _ true).1]
        dsimp only
        rw [listModify_length, listModify_length]
      · rw [(closeDropdown_frame _ true).1]
        exact hmi
      · intro j2 jt hj2 hjt
        obtain rfl : j = j2 := Option.some.inj hj2
        rw [(closeDropdown_frame _ true).1]
        dsimp only
        rw [listModify_getElem?, if_neg hji, listModify_getElem?, if_pos rfl, hjt]
        rfl
      · intro k hk hks
        have hkj : k ≠ j := fun h => hks (by rw [h])
        rw [(closeDropdown_frame _ true).1]
        dsimp only
        rw [listModify_getElem?, if_neg hk, listModify_getElem?, if_neg hkj]
      · exact (closeDropdown_frame _ true).2.2.1
      · exact (closeDropdown_frame _ true).2.2.2.1
      · rw [(closeDropdown_frame _ true).2.2.2.2.2.2, if_pos rfl]
    | false =>
      rw [if_neg (by simp)]
      refine ⟨rfl, ?_, hmi, ?_, ?_, rfl, rfl, rfl⟩
      · dsimp only
        rw [listModify_length, listModify_length]
      · intro j2 jt hj2 hjt
        obtain rfl : j = j2 := Option.some.inj hj2
        dsimp only
        rw [listModify_getElem?, if_neg hji, listModify_getElem?, if_pos rfl, hjt]
        rfl
      · intro k hk hks
        have hkj : k ≠ j := fun h => hks (by rw [h])
        dsimp only
        rw [listModify_getElem?, if_neg hk, listModify_getElem?, if_neg hkj]

/-- Claim C3: `handleItemSelect` is a no-op on the already-selected item;
otherwise the previously selected item (if any) loses the selected class
and gets aria-selected "false", the new item gains the class and
aria-selected "true" and becomes `selectedItem`, every other item is
untouched, the toggle's flag, displayed code (root plus
suffix-if-exactly-one) and label are updated to the new country's data, the
bound input's value becomes the item's ISO code when the input is present
(and stays absent otherwise), and the close events are dispatched on the
toggle iff the list was open; consequently, from any state where marked
items agree with `selectedItem`, at most one item is marked selected
afterwards. -/
theorem c3_item_select (s : PhonePrefixState) (i : Nat) (hi : i < s.items.length) :
    (s.selectedItem = some i → handleItemSelect s i = s) ∧
    (s.selectedItem ≠ some i →
      (handleItemSelect s i).selectedItem = some i ∧
      (∃ it : DropdownItem, s.items[i]? = some it ∧
        (handleItemSelect s i).items[i]? = some (toggleItemSelected it true) ∧
        (toggleItemSelected it true).element.selectedClass = true ∧
        (toggleItemSelected it true).element.ariaSelected = some "true" ∧
        (toggleItemSelected it true).country = it.country ∧
        (handleItemSelect s i).dropdownToggle.flagSrc = it.country.flagsSvg ∧
        (handleItemSelect s i).dropdownToggle.flagAlt = it.country.nameCommon ++ " Flag" ∧
        (handleItemSelect s i).dropdownToggle.valueText = countryCodeString it.country ∧
        (handleItemSelect s i).dropdownToggle.ariaLabel = some it.country.nameCommon ∧
        (∀ v, s.countryCodeInput = some v →
          (handleItemSelect s i).countryCodeInput = some it.country.cca2) ∧
        (s.countryCodeInput = none → (handleItemSelect s i).countryCodeInput = none)) ∧
      (∀ j jt, s.selectedItem = some j → s.items[j]? = some jt →
        (handleItemSelect s i).items[j]? = some (toggleItemSelected jt false) ∧
        (toggleItemSelected jt false).element.selectedClass = false ∧
        (toggleItemSelected jt false).element.ariaSelected = some "false") ∧
      (∀ k, k ≠ i → s.selectedItem ≠ some k →
        (handleItemSelect s i).items[k]? = s.items[k]?) ∧
      (s.listIsOpen = true →
        (handleItemSelect s i).toggleEvents = s.toggleEvents ++ ["click", "mouseup"]) ∧
      (s.listIsOpen = false → (handleItemSelect s i).toggleEvents = s.toggleEvents)) ∧
    (selectionAligned s → selectionAligned (handleItemSelect s i)) ∧
    (selectionAligned s → ∀ (j k : Nat) (jt kt : DropdownItem),
      (handleItemSelect s i).items[j]? = some jt →
      (handleItemSelect s i).items[k]? = some kt →
      jt.element.selectedClass = true → kt.element.selectedClass = true → j = k) := by
  have hpres : selectionAligned s → selectionAligned (handleItemSelect s i) := by
    intro halign
    by_cases hsel : s.selectedItem = some i
    · have heq : handleItemSelect s i = s := by
        unfold handleItemSelect
        rw [if_pos (by simp [hsel])]
      rw [heq]
      exact halign
    · have hit : s.items[i]? = some (s.items.get ⟨i, hi⟩) := by
        rw [List.getElem?_eq_getElem hi]
        rfl
      obtain ⟨h1, h2, h3, h4, h5, h6, h7, h8⟩ :=
        handleItemSelect_spec s i (s.items.get ⟨i, hi⟩) hsel hit
      intro j it2 hj2 hclass
      by_cases hji : j = i
      · rw [hji]
        exact h1
      · by_cases hsj : s.selectedItem = some j
        · have hjlen : j < s.items.length := by
            have hlt : j < (handleItemSelect s i).items.length := by
              obtain ⟨hh, -⟩ := List.getElem?_eq_some.mp hj2
              exact hh
            rw [h2] at hlt
            exact hlt
          have hjt : s.items[j]? = some (s.items.get ⟨j, hjlen⟩) := by
            rw [List.getElem?_eq_getElem hjlen]
            rfl
          have := h4 j (s.items.get ⟨j, hjlen⟩) hsj hjt
          rw [hj2] at this
          obtain rfl := Option.some.inj this
          exact absurd hclass (by simp [toggleItemSelected])
        · have := h5 j hji hsj
          rw [hj2] at this
          have halj := halign j it2 this.symm hclass
          exact absurd halj hsj
  refine ⟨?_, ?_, hpres, ?_⟩
  · intro hsel
    unfold handleItemSelect
    rw [if_pos (by simp [hsel])]
  · intro hne
    have hit : s.items[i]? = some (s.items.get ⟨i, hi⟩) := by
      rw [List.getElem?_eq_getElem hi]
      rfl
    obtain ⟨h1, h2, h3, h4, h5, h6, h7, h8⟩ :=
      handleItemSelect_spec s i (s.items.get ⟨i, hi⟩) hne hit
    refine ⟨h1, ⟨s.items.get ⟨i, hi⟩, hit, h3, rfl, rfl, rfl, ?_, ?_, ?_, ?_, ?_, ?_⟩,
      ?_, h5, ?_, ?_⟩
    · rw [h6]
      rfl
    · rw [h6]
      rfl
    · rw [h6]
      rfl
    · rw [h6]
      rfl
    · intro v hv
      rw [h7, hv]
    · intro hv
      rw [h7, hv]
    · intro j jt hj hjt
      exact ⟨h4 j jt hj hjt, rfl, rfl⟩
    · intro hop
      rw [h8, if_pos hop]
    · intro hcl
      rw [h8, if_neg (by simp [hcl])]
  · intro halign j k jt kt hj hk hcj hck
    have hresAligned := hpres halign
    have hsj := hresAligned j jt hj hcj
    have hsk := hresAligned k kt hk hck
    exact Option.some.inj (hsj.symm.trans hsk)

/-- Claim C3 witness: selecting item 1 while item 0 is selected records
item 1 as the selection. -/
theorem c3_item_select_witness :
    (handleItemSelect { sampleOpenState with selectedItem := some 0 } 1).selectedItem = some 1 :=
  ((c3_item_select { sampleOpenState with selectedItem := some 0 } 1 (by decide)).2.1
    (by decide)).1

theorem findFirstMatch_some (items : List DropdownItem) (q : String) (i : Nat)
    (h : findFirstMatch items q = some i) :
    ∃ it : DropdownItem, items[i]? = some it ∧ searchMatches q it = true ∧
      ∀ j, j < i → ∀ it2, items[j]? = some it2 → searchMatches q it2 = false := by
  induction items generalizing i with
  | nil => exact absurd h (by simp [findFirstMatch])
  | cons a rest ih =>
    unfold findFirstMatch at h
    split at h
    · rename_i hm
      obtain rfl : (0 : Nat) = i := Option.some.inj h
      exact ⟨a, by simp, hm, fun j hj => absurd hj (by omega)⟩
    · rename_i hm
      obtain ⟨j, hj, rfl⟩ := Option.map_eq_some'.mp h
      obtain ⟨it, hit, hmm, hbefore⟩ := ih j hj
      refine ⟨it, by simpa using hit, hmm, ?_⟩
      intro k hk it2 hget
      cases k with
      | zero =>
        obtain rfl : a = it2 := Option.some.inj (by simpa using hget)
        exact Bool.not_eq_true _ |>.mp hm
      | succ m =>
        exact hbefore m (by omega) it2 (by simpa using hget)

theorem findFirstMatch_none (items : List DropdownItem) (q : String)
    (h : findFirstMatch items q = none) :
    ∀ it ∈ items, searchMatches q it = false := by
  induction items with
  | nil => intro it hit; exact absurd hit (by simp)
  | cons a rest ih =>
    unfold findFirstMatch at h
    split at h
    · exact absurd h (by simp)
    · rename_i hm
      intro it hit
      rcases List.mem_cons.mp hit with rfl | hmem
      · exact Bool.not_eq_true _ |>.mp hm
      · exact ih (by simpa using h) it hmem

theorem string_length_pos_of_ne_empty (q : String) (h : q ≠ "") : q.length > 0 := by
  obtain ⟨data⟩ := q
  cases data with
  | nil => exact absurd rfl h
  | cons c rest => simp [String.length]

/-- Claim C4: for any keydown processed while the list is open, the query
becomes `updateSearchQuery` of the old query, and when that result is
non-empty, keyboard focus moves to the first item (in array order) whose
dialing-prefix string (root plus suffix-if-exactly-one, compared lower-cased
against "+" followed by the query), ISO code, or common name starts with
the query case-insensitively; when no item matches, focus is unchanged. -/
theorem c4_search_focus (s : PhonePrefixState) (key : String)
    (hopen : s.listIsOpen = true) :
    ((handleDropdownSearch s key).searchQuery = updateSearchQuery s.searchQuery key) ∧
    (updateSearchQuery s.searchQuery key ≠ "" →
      (∀ i, findFirstMatch s.items (updateSearchQuery s.searchQuery key) = some i →
        (handleDropdownSearch s key).focusedItem = some i ∧
        (∃ it : DropdownItem, s.items[i]? = some it ∧
          searchMatches (updateSearchQuery s.searchQuery key) it = true ∧
          ∀ j, j < i → ∀ it2, s.items[j]? = some it2 →
            searchMatches (updateSearchQuery s.searchQuery key) it2 = false)) ∧
      (findFirstMatch s.items (updateSearchQuery s.searchQuery key) = none →
        (handleDropdownSearch s key).focusedItem = s.focusedItem)) := by
  refine ⟨?_, ?_⟩
  · rw [searchQuery_handleDropdownSearch, if_pos hopen]
  · intro hq
    have hpos : (updateSearchQuery s.searchQuery key).length > 0 :=
      string_length_pos_of_ne_empty _ hq
    constructor
    · intro i hfind
      constructor
      · unfold handleDropdownSearch
        rw [if_neg (by simp [hopen])]
        dsimp only
        rw [if_pos hpos]
        rw [hfind]
      · exact findFirstMatch_some s.items _ i hfind
    · intro hfind
      unfold handleDropdownSearch
      rw [if_neg (by simp [hopen])]
      dsimp only
      rw [if_pos hpos]
      rw [hfind]

/-- Claim C4 witness: typing "f" over the sample list focuses the France
item, the first whose name starts with "f". -/
theorem c4_search_focus_witness :
    (handleDropdownSearch sampleOpenState "f").focusedItem = some 1 :=
  (((c4_search_focus sampleOpenState "f" rfl).2 (by decide)).1 1 (by decide)).1

end FinsweetPhone
